import Mathlib

/-!
Shallow embedding of `src/autocleanup.h` (scope-based automatic resource
cleanup macros for C) and verification of the frozen claims about it.

Modelling conventions:
  * a C pointer value of element type `α` is `Option α` (`none` is the
    null pointer, `some a` a non-null pointer to resource `a`);
  * a function argument that is itself a possibly-null pointer to the
    binding (`T **_ptr` or `T *_ptr`) is wrapped in one more `Option`;
  * calls to the bound release function are recorded as a list of the
    arguments passed, in call order: each modelled operation returns the
    binding value after the operation together with that list.
-/

namespace Autocleanup

/-- A C pointer value of element type `α`: `none` models the null pointer,
`some a` a non-null pointer to the resource `a`. -/
abbrev CPtr (α : Type) := Option α

/-- Embeds the cleanup function generated by `PTR_AUTO_DEFINE(_type_name, _func)`:
`static inline void _ptr_auto_cleanup_T (T **_ptr) { if (_ptr) (_func) (*_ptr); }`.
The argument models `_ptr`, a possibly-null pointer to the binding; the guard in
the source tests `_ptr` itself, not the held value `*_ptr`, and the binding is
not modified. Result: binding state after the call, and the list of arguments
passed to the release function `_func`. -/
def ptr_auto_cleanup {α : Type} (p : Option (CPtr α)) : Option (CPtr α) × List (CPtr α) :=
  match p with
  | none => (none, [])
  | some v => (some v, [v])

/-- Embeds `_ptr_auto_generic_free`:
`static inline void _ptr_auto_generic_free (void **ptr) { if (ptr) AUTOCLEANUP_FREE_FUNC (*ptr); }`.
Same shape as `ptr_auto_cleanup`; the release function here is the configured
free function (`free` by default), and its calls are recorded likewise. -/
def ptr_auto_generic_free {α : Type} (p : Option (CPtr α)) : Option (CPtr α) × List (CPtr α) :=
  match p with
  | none => (none, [])
  | some v => (some v, [v])

/-- Embeds the function `ptr_steal` (and the wrapping macro, which only adds a
cast): `void **ptr = pp; void *ref = *ptr; *ptr = (void*) 0; return ref;`.
Input is the current binding value; result is the returned reference paired
with the binding value afterwards. -/
def ptr_steal {α : Type} (v : CPtr α) : CPtr α × CPtr α :=
  (v, none)

/-- Embeds the cleanup function generated by
`HANDLE_AUTO_DEFINE(_type_name, _func, _nil_value)`: on a non-null `_ptr` it
reads `handle = *_ptr` and, when `handle != nil`, stores the nil sentinel into
the binding and then calls `(_func)(handle)`; otherwise it does nothing.
`vnil` is the sentinel declared by the macro; the argument models `_ptr`. -/
def handle_auto_cleanup {α : Type} [DecidableEq α] (vnil : α) (p : Option α) :
    Option α × List α :=
  match p with
  | none => (none, [])
  | some handle =>
    if handle ≠ vnil then (some vnil, [handle]) else (some handle, [])

/-- Events performed by the body of the generated handle cleanup function, in
program order, used to observe that the store of the sentinel happens before
the release call. -/
inductive CleanupEvent (α : Type) where
  | writeNil : CleanupEvent α
  | callRelease : α → CleanupEvent α
deriving DecidableEq

/-- Program-order trace of the generated handle cleanup body on a non-null
`_ptr` currently holding `handle`: when `handle != nil` the source first
executes `*_ptr = _HANDLE_AUTO_VNIL(...)` and then `(_func)(handle)`, in that
order; otherwise nothing happens. -/
def handle_auto_cleanup_trace {α : Type} [DecidableEq α] (vnil handle : α) :
    List (CleanupEvent α) :=
  if handle ≠ vnil then [CleanupEvent.writeNil, CleanupEvent.callRelease handle] else []

/-- Embeds the macro `handle_clear(_handle_ptr, _func, _nil_value)`: reads the
current value, and when it differs from the supplied nil value stores the nil
value and calls `_func` on the previous value. Input is the current binding
value; result is the binding value afterwards and the release calls made. -/
def handle_clear {α : Type} [DecidableEq α] (vnil : α) (handle : α) : α × List α :=
  if handle ≠ vnil then (vnil, [handle]) else (handle, [])

/-- Embeds the macro `handle_steal(_handle_ptr, _nil_value)`: reads the current
value, unconditionally stores `_nil_value`, and yields the previous value.
Result: value returned to the caller, binding value afterwards. -/
def handle_steal {α : Type} (handle : α) (nil_value : α) : α × α :=
  (handle, nil_value)

/-- Embeds the macro `ptr_clear(_pp, _func)`, defined in the source as
`handle_clear((_pp), (_func), ((void*)0))`. -/
def ptr_clear {α : Type} [DecidableEq α] (v : CPtr α) : CPtr α × List (CPtr α) :=
  handle_clear none v

/-- Exit paths out of a lexical scope: normal fall-through, or abrupt exit
(early return or simulated error propagation). -/
inductive ExitKind where
  | normal : ExitKind
  | abrupt : ExitKind

/-- Modelled from the spec: the runtime behaviour of `_AUTO_CLEANUP`, that is
of the compiler attribute `cleanup`, is not C code in this repository. Per the
spec, when control leaves a scope, normally or abruptly, the cleanup function
of every binding declared in it runs before the exit completes, in reverse
order of declaration. A scope is a declaration-ordered list of handle bindings
`(vnil, value)`; the result is the list of release-function invocations in the
order they occur during the exit. -/
def scope_exit {α : Type} [DecidableEq α] (bindings : List (α × α)) (_k : ExitKind) :
    List α :=
  (bindings.reverse).flatMap (fun b => (handle_auto_cleanup b.1 (some b.2)).2)

theorem handle_cleanup_flatMap_eq {α : Type} [DecidableEq α] (l : List (α × α)) :
    l.flatMap (fun b => (handle_auto_cleanup b.1 (some b.2)).2)
      = (l.filter (fun b => b.2 ≠ b.1)).map Prod.snd := by
  induction l with
  | nil => rfl
  | cons b t ih =>
    rw [List.flatMap_cons, List.filter_cons, ih]
    by_cases h : b.2 = b.1
    · simp [handle_auto_cleanup, h]
    · simp [handle_auto_cleanup, h]

/-- C1: evaluation at the failing input. The claim states that for a pointer
binding whose current value is the null pointer, neither the cleanup generated
by `PTR_AUTO_DEFINE` nor `_ptr_auto_generic_free` calls the release function.
The code violates this: their guard `if (_ptr)` tests the address of the
binding, which is never null under the cleanup attribute, not the held value,
so on a binding holding the null pointer both invoke the release function with
the null pointer as argument. -/
theorem c1_null_ptr_binding_release_is_called :
    ptr_auto_cleanup (α := Nat) (some none) = (some none, [none])
      ∧ ptr_auto_generic_free (α := Nat) (some none) = (some none, [none]) :=
  ⟨rfl, rfl⟩

/-- C2: evaluation at the failing input. The claim states that after
`ptr_steal` the release function bound by `PTR_AUTO_DEFINE` is never invoked at
scope exit. On the code, stealing does leave the binding null, but the
generated cleanup lacks a value guard, so at scope exit it still invokes the
release function once, with the null pointer. -/
theorem c2_steal_then_exit_release_still_called :
    (ptr_steal (α := Nat) (some 7)).1 = some 7
      ∧ (ptr_steal (α := Nat) (some 7)).2 = none
      ∧ (ptr_auto_cleanup (some (ptr_steal (α := Nat) (some 7)).2)).2 = [none] :=
  ⟨rfl, rfl, rfl⟩

/-- C3: evaluation at the failing input. The claim includes that the scope-exit
release is a no-op if the binding is empty at that moment; for a pointer
binding holding the null pointer the generated cleanup nevertheless performs a
release call (with the null pointer), so the no-op part fails on the code. -/
theorem c3_empty_ptr_binding_exit_not_noop :
    (ptr_auto_cleanup (α := Nat) (some none)).2 ≠ []
      ∧ (ptr_auto_cleanup (α := Nat) (some none)).2 = [none] :=
  ⟨by decide, rfl⟩

/-- C4: for a handle binding declared with nil sentinel `n`, the generated
cleanup invoked at scope exit on the held value `v` calls the release function
with `v` if and only if `v` differs from `n`, performs no call exactly when
`v = n`, and leaves the binding equal to `n`. -/
theorem c4_handle_cleanup_release_iff {α : Type} [DecidableEq α] (n v : α) :
    ((handle_auto_cleanup n (some v)).2 = [v] ↔ v ≠ n)
      ∧ ((handle_auto_cleanup n (some v)).2 = [] ↔ v = n)
      ∧ (handle_auto_cleanup n (some v)).1 = some n := by
  by_cases h : v = n <;> simp [handle_auto_cleanup, h]

/-- Witness for C4 at a concrete input: sentinel `-1`, held value `5`. -/
theorem c4_witness :
    ((handle_auto_cleanup (-1 : ℤ) (some 5)).2 = [5] ↔ (5 : ℤ) ≠ -1)
      ∧ ((handle_auto_cleanup (-1 : ℤ) (some 5)).2 = [] ↔ (5 : ℤ) = -1)
      ∧ (handle_auto_cleanup (-1 : ℤ) (some 5)).1 = some (-1) :=
  c4_handle_cleanup_release_iff (-1 : ℤ) 5

/-- C5: `ptr_steal` returns the previously held pointer and resets the binding
to null; `handle_steal` returns the previously held value and stores the
supplied nil sentinel; neither has a precondition, and stealing an
already-empty binding returns the empty value. -/
theorem c5_steal_returns_value_and_empties {α : Type} (v : CPtr α) (h n : α) :
    ptr_steal v = (v, none)
      ∧ handle_steal h n = (h, n)
      ∧ ptr_steal (α := α) none = (none, none)
      ∧ handle_steal n n = (n, n) :=
  ⟨rfl, rfl, rfl, rfl⟩

/-- Witness for C5 at concrete inputs: pointer value `some 7`, handle value
`5`, nil sentinel `-1`. -/
theorem c5_witness :
    ptr_steal (α := ℤ) (some 7) = (some 7, none)
      ∧ handle_steal (5 : ℤ) (-1) = (5, -1)
      ∧ ptr_steal (α := ℤ) none = (none, none)
      ∧ handle_steal (-1 : ℤ) (-1) = (-1, -1) :=
  c5_steal_returns_value_and_empties (some 7) 5 (-1)

/-- C6: clearing a non-empty handle binding (held value `v` different from the
matching nil sentinel `n`) invokes the release function exactly once,
immediately, with `v`, and leaves the binding equal to `n`, so the scope-exit
cleanup afterwards performs no further release. -/
theorem c6_clear_nonempty_releases_once {α : Type} [DecidableEq α] (n v : α)
    (h : v ≠ n) :
    handle_clear n v = (n, [v])
      ∧ handle_auto_cleanup n (some (handle_clear n v).1) = (some n, []) := by
  constructor
  · simp [handle_clear, h]
  · simp [handle_clear, handle_auto_cleanup, h]

/-- Witness for C6, the spec scenario: sentinel `-1`, value `5`; the release
function is invoked once with `5` and the binding then reads `-1`. -/
theorem c6_witness :
    (5 : ℤ) ≠ -1
      ∧ (handle_clear (-1 : ℤ) 5 = (-1, [5])
        ∧ handle_auto_cleanup (-1 : ℤ) (some (handle_clear (-1 : ℤ) 5).1)
            = (some (-1), [])) :=
  ⟨by decide, c6_clear_nonempty_releases_once (-1 : ℤ) 5 (by decide)⟩

/-- C7: clearing an empty binding is a no-op: `handle_clear` on a value equal
to the supplied nil sentinel makes no release call and leaves the binding
unchanged, and `ptr_clear` on a null pointer likewise. -/
theorem c7_clear_empty_noop {α : Type} [DecidableEq α] (n : α) :
    handle_clear n n = (n, []) ∧ ptr_clear (α := α) none = (none, []) := by
  constructor
  · simp [handle_clear]
  · simp [ptr_clear, handle_clear]

/-- Witness for C7 at a concrete input: sentinel `-1`. -/
theorem c7_witness :
    handle_clear (-1 : ℤ) (-1) = (-1, []) ∧ ptr_clear (α := ℤ) none = (none, []) :=
  c7_clear_empty_noop (-1 : ℤ)

/-- C8: when control leaves a scope containing two or more handle bindings,
normally or abruptly, the release calls made during the exit are exactly the
still-owned bindings (value different from the declared sentinel), in reverse
order of declaration, and the calls do not depend on the exit path. -/
theorem c8_scope_exit_reverse_order {α : Type} [DecidableEq α]
    (bindings : List (α × α)) (k : ExitKind) (_h : 2 ≤ bindings.length) :
    scope_exit bindings k
        = ((bindings.filter (fun b => b.2 ≠ b.1)).reverse).map Prod.snd
      ∧ scope_exit bindings ExitKind.normal = scope_exit bindings ExitKind.abrupt := by
  refine ⟨?_, rfl⟩
  unfold scope_exit
  rw [handle_cleanup_flatMap_eq, List.filter_reverse, List.map_reverse]

/-- Witness for C8 at a concrete scope: two owned bindings, sentinel `-1` with
value `5` declared first, sentinel `0` with value `7` declared second. -/
theorem c8_witness :
    2 ≤ ([((-1 : ℤ), 5), (0, 7)] : List (ℤ × ℤ)).length
      ∧ (scope_exit ([((-1 : ℤ), 5), (0, 7)] : List (ℤ × ℤ)) ExitKind.abrupt
          = ((([((-1 : ℤ), 5), (0, 7)] : List (ℤ × ℤ)).filter
              (fun b => b.2 ≠ b.1)).reverse).map Prod.snd
        ∧ scope_exit ([((-1 : ℤ), 5), (0, 7)] : List (ℤ × ℤ)) ExitKind.normal
            = scope_exit ([((-1 : ℤ), 5), (0, 7)] : List (ℤ × ℤ)) ExitKind.abrupt) :=
  ⟨by decide,
   c8_scope_exit_reverse_order ([((-1 : ℤ), 5), (0, 7)] : List (ℤ × ℤ))
     ExitKind.abrupt (by decide)⟩

/-- C9: the handle cleanup generated by `HANDLE_AUTO_DEFINE` stores the nil
sentinel into the binding before invoking the release function (program-order
trace), so it is idempotent: after any invocation the binding reads the nil
sentinel, and a second invocation on the same binding performs no release and
leaves the sentinel in place. -/
theorem c9_handle_cleanup_idempotent {α : Type} [DecidableEq α] (n v : α) :
    (v ≠ n →
      handle_auto_cleanup_trace n v
        = [CleanupEvent.writeNil, CleanupEvent.callRelease v])
      ∧ (handle_auto_cleanup n (some v)).1 = some n
      ∧ handle_auto_cleanup n ((handle_auto_cleanup n (some v)).1) = (some n, []) := by
  by_cases h : v = n <;>
    simp [handle_auto_cleanup, handle_auto_cleanup_trace, h]

/-- Witness for C9 at a concrete input: sentinel `-1`, held value `5`. -/
theorem c9_witness :
    handle_auto_cleanup_trace (-1 : ℤ) 5
        = [CleanupEvent.writeNil, CleanupEvent.callRelease 5]
      ∧ (handle_auto_cleanup (-1 : ℤ) (some 5)).1 = some (-1)
      ∧ handle_auto_cleanup (-1 : ℤ) ((handle_auto_cleanup (-1 : ℤ) (some 5)).1)
          = (some (-1), []) :=
  ⟨(c9_handle_cleanup_idempotent (-1 : ℤ) 5).1 (by decide),
   (c9_handle_cleanup_idempotent (-1 : ℤ) 5).2.1,
   (c9_handle_cleanup_idempotent (-1 : ℤ) 5).2.2⟩

/-- C10: `handle_steal` performs no emptiness comparison: it unconditionally
returns the held value, even one equal to a declared sentinel `declNil`, and
stores the caller-supplied value `n`, which need not equal `declNil`; a
subsequent scope-exit cleanup then releases `n` if and only if `n` differs
from `declNil`. -/
theorem c10_handle_steal_unconditional {α : Type} [DecidableEq α]
    (declNil n v : α) :
    handle_steal v n = (v, n)
      ∧ handle_steal declNil n = (declNil, n)
      ∧ ((handle_auto_cleanup declNil (some n)).2 = [n] ↔ n ≠ declNil) := by
  refine ⟨rfl, rfl, ?_⟩
  by_cases h : n = declNil <;> simp [handle_auto_cleanup, h]

/-- Witness for C10 at a concrete input: declared sentinel `-1`, stored value
`3`, held value `5`. -/
theorem c10_witness :
    handle_steal (5 : ℤ) 3 = (5, 3)
      ∧ handle_steal (-1 : ℤ) 3 = (-1, 3)
      ∧ ((handle_auto_cleanup (-1 : ℤ) (some 3)).2 = [3] ↔ (3 : ℤ) ≠ -1) :=
  c10_handle_steal_unconditional (-1 : ℤ) 3 5

end Autocleanup
